import Mathlib

/-
Shallow embedding of the ReaderTaskEither module (src/unnamed/part_001) of
this fp-ts repository, together with the collaborator operations that the
module delegates to.  The collaborators (Either.ts, Task.ts, TaskEither.ts,
ReaderT.ts) are not part of the source tree, so their operations are
modelled from the specification, which describes them in §3 (data model),
§4.1 (transformer construction), §4.3 (algebra instances) and §4.4
(combinator library).

Modelling choices:
* A `Deferred`/`Task` is a zero-argument callable; invoking it yields its
  settled value.  We model it as `Unit → A`, so the settled value of a
  task `t` is `t ()`.
* A `Result`/`Either` is the closed sum `left e | right a`.
* `Effect<R,E,A> = ReaderTaskEither R E A = R → Task (Either E A)`, and
  the settled result of running `ma` at environment `r` is `ma r ()`.
-/

namespace Fp

/-- The Result collaborator: a value that is exactly one of `left e`
(Failure) or `right a` (Success).  Modelled from the spec: Either.ts is
not under src/; §3 describes Result as the tagged union Failure(E) |
Success(A). -/
inductive Either (E A : Type) where
| left (e : E)
| right (a : A)
deriving Repr, DecidableEq

/-- The Deferred collaborator: a zero-argument callable that when invoked
yields its settled value.  Modelled from the spec: Task.ts is not under
src/; §3 describes Deferred as a pure value wrapping a not-yet-run
computation. -/
abbrev Task (A : Type) : Type := Unit → A

/-- FailableDeferred: a Deferred of a Result (§3).  Modelled from the
spec: TaskEither.ts is not under src/. -/
abbrev TaskEither (E A : Type) : Type := Task (Either E A)

namespace TE

/-- Modelled from the spec: TaskEither.ts is not under src/.  `right`
lifts a plain success value (§4.2, `right(a)` always succeeds). -/
def right {E A : Type} (a : A) : TaskEither E A :=
fun _ => Either.right a

/-- Modelled from the spec: TaskEither.ts is not under src/.  `left`
lifts a plain failure value (§4.2). -/
def left {E A : Type} (e : E) : TaskEither E A :=
fun _ => Either.left e

/-- Modelled from the spec: TaskEither.ts is not under src/.  `map`
maps only the Success branch, passing Failure through unchanged (§4.3
Functor). -/
def map {E A B : Type} (ma : TaskEither E A) (f : A → B) : TaskEither E B :=
fun u =>
  match ma u with
  | Either.left e => Either.left e
  | Either.right a => Either.right (f a)

/-- Modelled from the spec: TaskEither.ts is not under src/.  The
independent (parallel) `ap`: both branches settle, then the Result
applicative rule combines them — a function-position Failure wins, then
a value-position Failure, else the function is applied (§4.3). -/
def ap {E A B : Type} (mab : TaskEither E (A → B)) (ma : TaskEither E A) : TaskEither E B :=
fun u =>
  match mab u with
  | Either.left e => Either.left e
  | Either.right f =>
    match ma u with
    | Either.left e => Either.left e
    | Either.right a => Either.right (f a)

/-- Modelled from the spec: TaskEither.ts is not under src/.  `chain` is
sequential and short-circuits on Failure (§4.3 Monad, §5 ordering). -/
def chain {E A B : Type} (ma : TaskEither E A) (f : A → TaskEither E B) : TaskEither E B :=
fun u =>
  match ma u with
  | Either.left e => Either.left e
  | Either.right a => f a u

/-- Modelled from the spec: TaskEither.ts is not under src/.  `alt` runs
the first effect; on Failure it runs the lazily-supplied second effect
and adopts its result; on Success the thunk is never invoked (§4.3
Alternative). -/
def alt {E A : Type} (fx : TaskEither E A) (fy : Unit → TaskEither E A) : TaskEither E A :=
fun u =>
  match fx u with
  | Either.left _ => fy () u
  | Either.right a => Either.right a

/-- Modelled from the spec: TaskEither.ts is not under src/.  `bimap`
maps both branches of the eventual Result (§4.3 Bifunctor). -/
def bimap {E M A B : Type} (ma : TaskEither E A) (f : E → M) (g : A → B) : TaskEither M B :=
fun u =>
  match ma u with
  | Either.left e => Either.left (f e)
  | Either.right a => Either.right (g a)

/-- Modelled from the spec: TaskEither.ts is not under src/.  `mapLeft`
maps only the Failure branch (§4.3 Bifunctor). -/
def mapLeft {E M A : Type} (ma : TaskEither E A) (f : E → M) : TaskEither M A :=
fun u =>
  match ma u with
  | Either.left e => Either.left (f e)
  | Either.right a => Either.right a

/-- Modelled from the spec: TaskEither.ts is not under src/.  `fold`
collapses both outcomes into a single deferred value: exactly one of the
two handlers produces the result (§4.4). -/
def fold {E A B : Type} (onLeft : E → Task B) (onRight : A → Task B) (ma : TaskEither E A) : Task B :=
fun u =>
  match ma u with
  | Either.left e => onLeft e u
  | Either.right a => onRight a u

/-- Modelled from the spec: TaskEither.ts is not under src/.
`getOrElse` recovers a same-typed value on Failure (§4.4). -/
def getOrElse {E A : Type} (onLeft : E → Task A) (ma : TaskEither E A) : Task A :=
fold onLeft (fun a => fun _ => a) ma

/-- Modelled from the spec: TaskEither.ts is not under src/.  `orElse`
replaces the remainder of the computation with `f e` on Failure and
passes Success through untouched (§4.4). -/
def orElse {E M A : Type} (f : E → TaskEither M A) (ma : TaskEither E A) : TaskEither M A :=
fun u =>
  match ma u with
  | Either.left e => f e u
  | Either.right a => Either.right a

/-- Modelled from the spec: TaskEither.ts is not under src/.
`fromPredicate(predicate, onFalse)` is `a => predicate(a) ? right(a) :
left(onFalse(a))` (§4.2). -/
def fromPredicate {E A : Type} (predicate : A → Bool) (onFalse : A → E) (a : A) : TaskEither E A :=
if predicate a then right a else left (onFalse a)

/-- Modelled from the spec: TaskEither.ts is not under src/.
`fromEither` lifts a pre-existing Result; the resulting task settles to
that very Result (§4.2, §6). -/
def fromEither {E A : Type} (ma : Either E A) : TaskEither E A :=
fun _ => ma

/-- Modelled from the spec: TaskEither.ts is not under src/.
`rightTask` lifts a no-failure Deferred into success position (§4.2). -/
def rightTask {E A : Type} (ma : Task A) : TaskEither E A :=
fun u => Either.right (ma u)

end TE

/-- The public Effect type of the module (src/unnamed/part_001 line 40):
`ReaderTaskEither<R,E,A>` is a callable from an environment `R` to a
`TaskEither<E,A>`. -/
abbrev ReaderTaskEither (R E A : Type) : Type := R → TaskEither E A

namespace T

/-- Modelled from the spec: ReaderT.ts (`getReaderM`) is not under src/;
§4.1 gives `of(a) = r => M.of(a)`, with `M.of` the taskEither unit. -/
def of {R E A : Type} (a : A) : ReaderTaskEither R E A :=
fun _ => TE.right a

/-- Modelled from the spec: ReaderT.ts is not under src/; §4.1 gives
`map(fa, f) = r => M.map(fa(r), f)`. -/
def map {R E A B : Type} (fa : ReaderTaskEither R E A) (f : A → B) : ReaderTaskEither R E B :=
fun r => TE.map (fa r) f

/-- Modelled from the spec: ReaderT.ts is not under src/; §4.1 gives
`ap(fab, fa) = r => M.ap(fab(r), fa(r))`. -/
def ap {R E A B : Type} (fab : ReaderTaskEither R E (A → B)) (fa : ReaderTaskEither R E A) : ReaderTaskEither R E B :=
fun r => TE.ap (fab r) (fa r)

/-- Modelled from the spec: ReaderT.ts is not under src/; §4.1 gives
`chain(fa, f) = r => M.chain(fa(r), a => f(a)(r))`. -/
def chain {R E A B : Type} (fa : ReaderTaskEither R E A) (f : A → ReaderTaskEither R E B) : ReaderTaskEither R E B :=
fun r => TE.chain (fa r) (fun a => f a r)

/-- Modelled from the spec: ReaderT.ts is not under src/; §4.1 gives
`ask() = r => M.of(r)`. -/
def ask {R E : Type} : ReaderTaskEither R E R :=
fun r => TE.right r

/-- Modelled from the spec: ReaderT.ts is not under src/; §4.1 gives
`asks(f) = r => M.of(f(r))`. -/
def asks {R E A : Type} (f : R → A) : ReaderTaskEither R E A :=
fun r => TE.right (f r)

/-- Modelled from the spec: ReaderT.ts is not under src/; §4.1 gives
`local(fa, f) = q => fa(f(q))`. -/
def localT {Q R E A : Type} (fa : ReaderTaskEither R E A) (f : Q → R) : ReaderTaskEither Q E A :=
fun q => fa (f q)

/-- Modelled from the spec: ReaderT.ts is not under src/; `fromM` is the
constant lift of a base-effect value, `r => ma` (§4.2
`fromFailableDeferred(fd) = r => fd`). -/
def fromM {R E A : Type} (ma : TaskEither E A) : ReaderTaskEither R E A :=
fun _ => ma

end T

namespace RTE

/-- `run` (part_001 lines 47-49): invoke the Effect with `r` and force
the deferred result; we observe the settled Result directly. -/
def run {R E A : Type} (ma : ReaderTaskEither R E A) (r : R) : Either E A :=
ma r ()

/-- `left` (part_001 lines 54-56): `fromTaskEither(TE.left(e))`. -/
def left {R E A : Type} (e : E) : ReaderTaskEither R E A :=
T.fromM (TE.left e)

/-- `right` (part_001 line 61): `T.of`. -/
def right {R E A : Type} (a : A) : ReaderTaskEither R E A :=
T.of a

/-- `fromTaskEither` (part_001 line 80): `T.fromM`. -/
def fromTaskEither {R E A : Type} (ma : TaskEither E A) : ReaderTaskEither R E A :=
T.fromM ma

/-- `fromEither` (part_001 lines 104-106):
`fromTaskEither(TE.fromEither(ma))`. -/
def fromEither {R E A : Type} (ma : Either E A) : ReaderTaskEither R E A :=
fromTaskEither (TE.fromEither ma)

/-- `fromPredicate` (part_001 lines 140-146):
`const f = TE.fromPredicate(predicate, onFalse); return a =>
fromTaskEither(f(a))`. -/
def fromPredicate {R E A : Type} (predicate : A → Bool) (onFalse : A → E) (a : A) : ReaderTaskEither R E A :=
fromTaskEither (TE.fromPredicate predicate onFalse a)

/-- `fold` (part_001 lines 151-160): `ma => r => pipe(ma(r), TE.fold(e =>
onLeft(e)(r), a => onRight(a)(r)))`. -/
def fold {R E A B : Type} (onLeft : E → R → Task B) (onRight : A → R → Task B) (ma : ReaderTaskEither R E A) : R → Task B :=
fun r => TE.fold (fun e => onLeft e r) (fun a => onRight a r) (ma r)

/-- `getOrElse` (part_001 lines 165-169): `ma => r =>
TE.getOrElse(e => onLeft(e)(r))(ma(r))`. -/
def getOrElse {R E A : Type} (onLeft : E → R → Task A) (ma : ReaderTaskEither R E A) : R → Task A :=
fun r => TE.getOrElse (fun e => onLeft e r) (ma r)

/-- `orElse` (part_001 lines 174-178): `ma => r =>
TE.orElse(e => f(e)(r))(ma(r))`. -/
def orElse {R E M A : Type} (f : E → ReaderTaskEither R M A) (ma : ReaderTaskEither R E A) : ReaderTaskEither R M A :=
fun r => TE.orElse (fun e => f e r) (ma r)

/-- `asks` (part_001 line 188): `T.asks`. -/
def asks {R E A : Type} (f : R → A) : ReaderTaskEither R E A :=
T.asks f

/-- `local` (part_001 lines 193-195): `ma => T.local(ma, f)`; named
`localRTE` because `local` is reserved in Lean. -/
def localRTE {Q R E A : Type} (f : Q → R) (ma : ReaderTaskEither R E A) : ReaderTaskEither Q E A :=
T.localT ma f

end RTE

/-- The shape of the `readerTaskEither` instance record (part_001 lines
200-211): the operations of the Monad, Bifunctor and Alt instances,
together with the Task lift.  (The URI string field and the `fromIO`
lift, which only re-packages an external synchronous collaborator, are
not modelled.) -/
structure RTEMonad : Type 1 where
map : {R E A B : Type} → ReaderTaskEither R E A → (A → B) → ReaderTaskEither R E B
of : {R E A : Type} → A → ReaderTaskEither R E A
ap : {R E A B : Type} → ReaderTaskEither R E (A → B) → ReaderTaskEither R E A → ReaderTaskEither R E B
chain : {R E A B : Type} → ReaderTaskEither R E A → (A → ReaderTaskEither R E B) → ReaderTaskEither R E B
alt : {R E A : Type} → ReaderTaskEither R E A → (Unit → ReaderTaskEither R E A) → ReaderTaskEither R E A
bimap : {R E M A B : Type} → ReaderTaskEither R E A → (E → M) → (A → B) → ReaderTaskEither R M B
mapLeft : {R E M A : Type} → ReaderTaskEither R E A → (E → M) → ReaderTaskEither R M A
fromTask : {R E A : Type} → Task A → ReaderTaskEither R E A

/-- The `readerTaskEither` instance (part_001 lines 200-211): `map:
T.map, of: right, ap: T.ap, chain: T.chain, alt: (fx, fy) => r =>
TE.taskEither.alt(fx(r), () => fy()(r)), bimap: (ma, f, g) => e =>
TE.taskEither.bimap(ma(e), f, g), mapLeft: (ma, f) => e =>
TE.taskEither.mapLeft(ma(e), f), fromTask: rightTask`. -/
def readerTaskEither : RTEMonad where
map := T.map
of := RTE.right
ap := T.ap
chain := T.chain
alt := fun fx fy => fun r => TE.alt (fx r) (fun _ => fy () r)
bimap := fun ma f g => fun e => TE.bimap (ma e) f g
mapLeft := fun ma f => fun e => TE.mapLeft (ma e) f
fromTask := fun ma => RTE.fromTaskEither (TE.rightTask ma)

/-- The `readerTaskEitherSeq` instance (part_001 lines 217-220): the
spread `...readerTaskEither` with only `ap` overridden by
`(mab, ma) => T.chain(mab, f => T.map(ma, f))`. -/
def readerTaskEitherSeq : RTEMonad :=
{ readerTaskEither with ap := fun mab ma => T.chain mab (fun f => T.map ma f) }

/-- A one-field record environment mirroring the spec's concrete
scenario environment `\x7b n: 4 \x7d` (§8 scenario 5). -/
structure NEnv : Type where
n : Nat
deriving Repr, DecidableEq

/-- Claim C1 — the monad laws hold for `chain` with `right` as the unit:
at every environment `r`, `chain(right(a), f)` settles to the same
Result as `f(a)`; `chain(fa, right)` settles to the same Result as `fa`;
and `chain(chain(fa, f), g)` settles to the same Result as
`chain(fa, a => chain(f(a), g))`. -/
theorem C1_monad_laws (R E A B C : Type) (a : A) (f : A → ReaderTaskEither R E B)
    (fa : ReaderTaskEither R E A) (g : B → ReaderTaskEither R E C) (r : R) :
    RTE.run (readerTaskEither.chain (RTE.right a) f) r = RTE.run (f a) r
    ∧ RTE.run (readerTaskEither.chain fa RTE.right) r = RTE.run fa r
    ∧ RTE.run (readerTaskEither.chain (readerTaskEither.chain fa f) g) r
      = RTE.run (readerTaskEither.chain fa (fun a => readerTaskEither.chain (f a) g)) r := by
  refine ⟨rfl, ?_, ?_⟩
  · cases h : fa r () <;>
      simp [RTE.run, readerTaskEither, T.chain, TE.chain, RTE.right, T.of, TE.right, h]
  · cases h : fa r () <;>
      simp [RTE.run, readerTaskEither, T.chain, TE.chain, h]

/-- Claim C2 — `chain` short-circuits on Failure: at every environment
`r`, `chain(left(e), f)` settles to `Failure(e)` for every continuation
`f`, so the settled Result is independent of the continuation. -/
theorem C2_chain_short_circuit (R E A B : Type) (e : E)
    (f g : A → ReaderTaskEither R E B) (r : R) :
    RTE.run (readerTaskEither.chain (RTE.left e) f) r = Either.left e
    ∧ RTE.run (readerTaskEither.chain (RTE.left e) f) r
      = RTE.run (readerTaskEither.chain (RTE.left e) g) r :=
  ⟨rfl, rfl⟩

/-- Claim C3 — parallel-`ap` tie-break: at every environment `r`,
`ap(left(e1), left(e2))` settles to `Failure(e1)`; when both branches
fail, the function-position failure wins. -/
theorem C3_par_ap_tie_break (R E A B : Type) (e1 e2 : E) (r : R) :
    RTE.run (readerTaskEither.ap (RTE.left e1 : ReaderTaskEither R E (A → B)) (RTE.left e2)) r
      = Either.left e1 :=
  rfl

/-- Claim C4 — `alt` is a lazy fallback: at every environment `r`, if
`fx` settles to `Success(a)` then `alt(fx, fy)` settles to `Success(a)`
(the thunk `fy` does not occur in that branch, so the Result is
independent of it), and if `fx` settles to `Failure(e)` then
`alt(fx, fy)` settles to the Result of `fy()` run at the same `r`. -/
theorem C4_alt_lazy_fallback (R E A : Type) (fx : ReaderTaskEither R E A)
    (fy : Unit → ReaderTaskEither R E A) (r : R) :
    RTE.run (readerTaskEither.alt fx fy) r
      = match RTE.run fx r with
        | Either.left _ => RTE.run (fy ()) r
        | Either.right a => Either.right a := by
  cases h : RTE.run fx r <;>
    simp [RTE.run, readerTaskEither, TE.alt, RTE.run] at h ⊢ <;> simp [h]

/-- Claim C5 — `local`/`asks` composition law: for every environment
transformer `f : Q → R`, pure function `g` and environment `r : Q`,
`run(local(f)(asks(g)), r)` settles to the same Result as
`run(asks(a => g(f(a))), r)`; in particular
`run(local(q => \x7b n: q.n+1 \x7d)(asks(q => q.n)), \x7b n: 4 \x7d)`
settles to `Success(5)`. -/
theorem C5_local_asks (Q R E A : Type) (f : Q → R) (g : R → A) (r : Q) :
    RTE.run (RTE.localRTE f (RTE.asks g : ReaderTaskEither R E A)) r
      = RTE.run (RTE.asks (fun a => g (f a))) r
    ∧ RTE.run (RTE.localRTE (fun q : NEnv => NEnv.mk (q.n + 1))
        (RTE.asks (fun q : NEnv => q.n) : ReaderTaskEither NEnv E Nat)) (NEnv.mk 4)
      = Either.right 5 :=
  ⟨rfl, rfl⟩

/-- Claim C6 — `fold` is total and runs exactly one handler: at every
environment `r`, if `ma` settles to `Failure(e)` the folded computation
at `r` is exactly the deferred value `onFailure(e)(r)`, and if `ma`
settles to `Success(a)` it is exactly `onSuccess(a)(r)`; the other
handler does not occur in the respective branch, and the produced
deferred value carries no Failure/Success tag. -/
theorem C6_fold_total (R E A B : Type) (onFailure : E → R → Task B)
    (onSuccess : A → R → Task B) (ma : ReaderTaskEither R E A) (r : R) :
    RTE.fold onFailure onSuccess ma r
      = match RTE.run ma r with
        | Either.left e => onFailure e r
        | Either.right a => onSuccess a r := by
  funext u
  cases u
  cases h : RTE.run ma r <;>
    simp [RTE.fold, TE.fold, RTE.run] at h ⊢ <;> simp [h]

/-- Claim C7 — `orElse` recovers only on Failure: at every environment
`r`, if `ma` settles to `Success(a)` then `orElse(f)(ma)` settles to
`Success(a)` (the recovery function does not occur in that branch), and
if `ma` settles to `Failure(e)` then `orElse(f)(ma)` settles to the
Result of `f(e)` run at the same `r`; in particular
`run(orElse(e => right("recovered:" + e))(left("boom")), r)` settles to
`Success("recovered:boom")`. -/
theorem C7_orElse_recovers (R E M A : Type) (f : E → ReaderTaskEither R M A)
    (ma : ReaderTaskEither R E A) (r : R) :
    (RTE.run (RTE.orElse f ma) r
      = match RTE.run ma r with
        | Either.left e => RTE.run (f e) r
        | Either.right a => Either.right a)
    ∧ RTE.run (RTE.orElse
        (fun e => (RTE.right ("recovered:" ++ e) : ReaderTaskEither R String String))
        (RTE.left "boom")) r
      = Either.right "recovered:boom" := by
  refine ⟨?_, rfl⟩
  cases h : RTE.run ma r <;>
    simp [RTE.orElse, TE.orElse, RTE.run] at h ⊢ <;> simp [h]

/-- Claim C8 — `fromPredicate` fails iff the predicate is false: at
every environment `r`, if `predicate a` holds then
`fromPredicate(predicate, onFalse)(a)` settles to `Success(a)`, else it
settles to `Failure(onFalse(a))`. -/
theorem C8_fromPredicate (R E A : Type) (predicate : A → Bool) (onFalse : A → E)
    (a : A) (r : R) :
    RTE.run (RTE.fromPredicate predicate onFalse a : ReaderTaskEither R E A) r
      = if predicate a then Either.right a else Either.left (onFalse a) := by
  by_cases h : predicate a <;>
    simp [RTE.run, RTE.fromPredicate, RTE.fromTaskEither, T.fromM, TE.fromPredicate,
      TE.right, TE.left, h]

/-- Claim C9 — the constructors `left`, `fromTaskEither` and
`fromEither` ignore the environment: running the constructed Effect at
any two environments `r1` and `r2` settles to the identical Result, and
`left e` settles to `Failure(e)` at every environment. -/
theorem C9_env_independent (R E A : Type) (e : E) (ma : TaskEither E A)
    (ea : Either E A) (r1 r2 : R) :
    RTE.run (RTE.left e : ReaderTaskEither R E A) r1
      = RTE.run (RTE.left e : ReaderTaskEither R E A) r2
    ∧ RTE.run (RTE.left e : ReaderTaskEither R E A) r1 = Either.left e
    ∧ RTE.run (RTE.fromTaskEither ma : ReaderTaskEither R E A) r1
      = RTE.run (RTE.fromTaskEither ma : ReaderTaskEither R E A) r2
    ∧ RTE.run (RTE.fromEither ea : ReaderTaskEither R E A) r1
      = RTE.run (RTE.fromEither ea : ReaderTaskEither R E A) r2 :=
  ⟨rfl, rfl, rfl, rfl⟩

/-- Claim C10 — the parallel (`readerTaskEither`) and sequential
(`readerTaskEitherSeq`) instances are extensionally equivalent on
settled Results: at every environment `r` their `ap`s settle to the same
Result, and the two instances agree definitionally on every modelled
operation other than `ap` (map, of, chain, alt, bimap, mapLeft,
fromTask). -/
theorem C10_seq_par_equiv (R E M A B : Type) (mab : ReaderTaskEither R E (A → B))
    (ma : ReaderTaskEither R E A) (r : R) (f0 : A → B) (a0 : A)
    (k : A → ReaderTaskEither R E B) (fy : Unit → ReaderTaskEither R E A)
    (fe : E → M) (fb : A → B) (ta : Task A) :
    RTE.run (readerTaskEither.ap mab ma) r = RTE.run (readerTaskEitherSeq.ap mab ma) r
    ∧ readerTaskEitherSeq.map ma f0 = readerTaskEither.map ma f0
    ∧ (readerTaskEitherSeq.of a0 : ReaderTaskEither R E A) = readerTaskEither.of a0
    ∧ readerTaskEitherSeq.chain ma k = readerTaskEither.chain ma k
    ∧ readerTaskEitherSeq.alt ma fy = readerTaskEither.alt ma fy
    ∧ readerTaskEitherSeq.bimap ma fe fb = readerTaskEither.bimap ma fe fb
    ∧ readerTaskEitherSeq.mapLeft ma fe = readerTaskEither.mapLeft ma fe
    ∧ (readerTaskEitherSeq.fromTask ta : ReaderTaskEither R E A)
      = readerTaskEither.fromTask ta := by
  refine ⟨?_, rfl, rfl, rfl, rfl, rfl, rfl, rfl⟩
  cases hf : mab r () <;> cases ha : ma r () <;>
    simp [RTE.run, readerTaskEither, readerTaskEitherSeq, T.ap, TE.ap, T.chain, TE.chain,
      T.map, TE.map, hf, ha]

end Fp
